import Mathlib

/-!
Shallow embedding of `splunknova/client.py` (the Splunk Nova client).

Pure query-building logic is translated directly; network I/O is modelled
by passing the server's response (an `HttpResult`) as an explicit argument,
and Python exceptions are modelled with an error value type `PyError`
(`handle_http_error` returns the classified error instead of raising it).
The class attribute `EventSearch.transforms` is a single list shared by
every instance and mutated in place by `eval`, so it is modelled as an
explicit piece of state threaded beside the instances.
-/

/-- Fixed service root, `NOVA_BASE_URL = 'https://api.splunknova.com/'`. -/
def NOVA_BASE_URL : String := "https://api.splunknova.com/"

/-- Python exception values raised by the client: `ValueError` for
caller-fixable request errors and `RuntimeError` for server-side and
malformed-response failures.  The carried string is the exception
message. -/
inductive PyError where
  | valueError : String → PyError
  | runtimeError : String → PyError
deriving DecidableEq, Repr

/-- Exception class of a `PyError` (what a Python `except` clause
dispatches on). -/
inductive ErrKind where
  | valueErrorKind : ErrKind
  | runtimeErrorKind : ErrKind
deriving DecidableEq, Repr

/-- Class of the exception: `ValueError` or `RuntimeError`. -/
def PyError.kind : PyError → ErrKind
  | .valueError _ => .valueErrorKind
  | .runtimeError _ => .runtimeErrorKind

/-- Embedding of `handle_http_error(e)`: formats
`'{} {} - {}'.format(status_code, reason, text)` and classifies the failure
by status code, `ValueError` below 500 and `RuntimeError` at 500 and above.
The source raises the exception; the model returns it. -/
def handle_http_error (status_code : Nat) (reason text : String) : PyError :=
  let error_text := toString status_code ++ " " ++ reason ++ " - " ++ text
  if status_code < 500 then PyError.valueError error_text
  else PyError.runtimeError error_text

/-- Outcome of one HTTP round trip as seen by the client: either a 2xx
response whose JSON body is an association list of top-level fields, or a
failed response carrying status code, reason phrase and body text. -/
inductive HttpResult where
  | success (body : List (String × String)) : HttpResult
  | failure (status_code : Nat) (reason text : String) : HttpResult
deriving DecidableEq, Repr

/-- Lookup of a top-level JSON field, `r.json()[key]`; `none` models the
`KeyError` case. -/
def jsonGet (body : List (String × String)) (key : String) : Option String :=
  (body.find? (fun p => p.1 == key)).map Prod.snd

/-- Embedding of class `EventsClient` (credential and URL state). -/
structure EventsClient where
  client_id : String
  client_secret : String
  base_url : String
deriving DecidableEq, Repr

/-- Embedding of class `MetricsClient` (credential and URL state). -/
structure MetricsClient where
  client_id : String
  client_secret : String
  base_url : String
deriving DecidableEq, Repr

/-- Value stored in the `Client` attributes `_events_client` and
`_metrics_client`.  Python attributes are dynamically typed, so the model
keeps every value the code (or the spec's intended code) could store:
`None`, a string — `Client.metrics` assigns `''` — or a sub-client. -/
inductive PyValue where
  | pyNone : PyValue
  | str (s : String) : PyValue
  | eventsClient (c : EventsClient) : PyValue
  | metricsClient (m : MetricsClient) : PyValue
deriving DecidableEq, Repr

/-- Whether the stored value is a metrics sub-client instance. -/
def PyValue.isMetricsClient : PyValue → Bool
  | .metricsClient _ => true
  | _ => false

/-- Embedding of class `Client`: constructor arguments stored verbatim. -/
structure Client where
  client_id : String
  client_secret : String
  version : String
deriving DecidableEq, Repr

/-- Mutable attribute state of one `Client` instance.  The class attributes
`_events_client = None` and `_metrics_client = None` give the initial
state. -/
structure ClientState where
  events_client : PyValue
  metrics_client : PyValue
deriving DecidableEq, Repr

/-- State of a freshly constructed `Client` (both cached sub-clients are
`None`). -/
def ClientState.init : ClientState :=
  { events_client := PyValue.pyNone, metrics_client := PyValue.pyNone }

/-- Embedding of the `Client._base_url` property:
`urljoin(NOVA_BASE_URL, 'v{}/'.format(version))`.  The root ends in `/` and
the argument is a relative path, so `urljoin` resolves it by
concatenation. -/
def Client.base_url (c : Client) : String :=
  NOVA_BASE_URL ++ "v" ++ c.version ++ "/"

/-- Embedding of the `Client.events` property: on first access (cached
value `None`) construct `EventsClient(client_id, client_secret, _base_url)`
and cache it; otherwise return the cached value unchanged. -/
def Client.events (c : Client) (st : ClientState) : PyValue × ClientState :=
  match st.events_client with
  | PyValue.pyNone =>
      let ec := PyValue.eventsClient
        { client_id := c.client_id, client_secret := c.client_secret,
          base_url := c.base_url }
      (ec, { st with events_client := ec })
  | v => (v, st)

/-- Embedding of the `Client.metrics` property: on first access (cached
value `None`) the code assigns the empty string `''` — not a
`MetricsClient` — and returns it; otherwise return the cached value
unchanged. -/
def Client.metrics (_c : Client) (st : ClientState) : PyValue × ClientState :=
  match st.metrics_client with
  | PyValue.pyNone =>
      (PyValue.str "", { st with metrics_client := PyValue.str "" })
  | v => (v, st)

/-- Modelled from the spec (section 4.2 and claim C7): the intended
`Client.metrics` accessor constructs the metrics sub-client the same way
`Client.events` constructs the events sub-client — bound to the derived
base URL and credentials — and caches it.  The code under `src/` instead
assigns the placeholder `''`. -/
def Client.metrics_intended (c : Client) (st : ClientState) :
    PyValue × ClientState :=
  match st.metrics_client with
  | PyValue.pyNone =>
      let mc := PyValue.metricsClient
        { client_id := c.client_id, client_secret := c.client_secret,
          base_url := c.base_url }
      (mc, { st with metrics_client := mc })
  | v => (v, st)

/-- Embedding of class `EventSearch` (per-instance attributes set in
`__init__`).  The class-level `transforms` list is NOT here: it is a class
attribute shared by all instances, modelled as explicit state of type
`List String` threaded through `eval` and the query builders. -/
structure EventSearch where
  base_url : String
  search : String
  earliest : Option String
  latest : Option String
  client_id : String
  client_secret : String
deriving DecidableEq, Repr

/-- Embedding of `EventsClient.search(terms, earliest, latest)`: builds an
`EventSearch` bound to the search URL (`urljoin(base_url, 'events')`, a
concatenation since `base_url` ends in `/`), the terms, the credentials and
the optional time specifiers.  No network I/O happens here. -/
def EventsClient.search (c : EventsClient) (terms : String)
    (earliest latest : Option String) : EventSearch :=
  { base_url := c.base_url ++ "events", search := terms,
    earliest := earliest, latest := latest,
    client_id := c.client_id, client_secret := c.client_secret }

/-- Embedding of `EventSearch.eval(field, transform)`: appends
`'{}={}'.format(field, transform)` to the shared `transforms` list and
returns `self`.  The shared list is passed in and the updated list is
returned beside the unchanged instance. -/
def EventSearch.eval (self : EventSearch) (transforms : List String)
    (field transform : String) : EventSearch × List String :=
  (self, transforms ++ [field ++ "=" ++ transform])

/-- Embedding of `EventSearch._encode_transforms`:
`' '.join(['eval'] + self.transforms)`. -/
def EventSearch.encode_transforms (transforms : List String) : String :=
  String.intercalate " " ("eval" :: transforms)

/-- Query mapping assembled by `EventSearch._search` before URL-encoding:
keys `keywords`, `index`, `count`, and the optional keys `transform` and
`report` (present iff the `Option` is `some`). -/
structure SearchQuery where
  keywords : String
  index : Nat
  count : Nat
  transform : Option String
  report : Option String
deriving DecidableEq, Repr

/-- Embedding of the query-building part of
`EventSearch._search(index, count, stats_string, timechart_string)`:
`keywords` is the optional `earliest_time=.. ` prefix, then the optional
`latest_time=.. ` prefix, then the raw term; `transform` is set iff the
shared transforms list is non-empty; `report` is `'stats ' + s` when a
stats string is given, else `'timechart ' + t` when a timechart string is
given (the `elif` makes stats win). -/
def EventSearch.build_search (self : EventSearch) (transforms : List String)
    (index count : Nat)
    (stats_string timechart_string : Option String) : SearchQuery :=
  let time_string :=
    (match self.earliest with
     | some e => "earliest_time=" ++ e ++ " "
     | none => "") ++
    (match self.latest with
     | some l => "latest_time=" ++ l ++ " "
     | none => "")
  { keywords := time_string ++ self.search,
    index := index,
    count := count,
    transform :=
      if transforms.length > 0
      then some (EventSearch.encode_transforms transforms)
      else none,
    report :=
      match stats_string with
      | some s => some ("stats " ++ s)
      | none =>
        match timechart_string with
        | some t => some ("timechart " ++ t)
        | none => none }

/-- Embedding of `EventSearch.stats(stats_string)` up to the request it
issues: `self._search(stats_string=stats_string)` with the default
`index=0, count=10` and no timechart string. -/
def EventSearch.stats_query (self : EventSearch) (transforms : List String)
    (stats_string : String) : SearchQuery :=
  self.build_search transforms 0 10 (some stats_string) none

/-- Embedding of `EventSearch.timechart(timechart_string)` up to the
request it issues: `self._search(timechart_string=timechart_string)` with
the default `index=0, count=10` and no stats string. -/
def EventSearch.timechart_query (self : EventSearch)
    (transforms : List String) (timechart_string : String) : SearchQuery :=
  self.build_search transforms 0 10 none (some timechart_string)

/-- Embedding of `EventSearch.events(index, count)` with the network
abstracted as a `server` function from `(index, count)` to the `events`
field of the JSON response (a page of events, here opaque naturals). -/
def EventSearch.eventsPage (server : Nat → Nat → List Nat)
    (index count : Nat) : List Nat :=
  server index count

/-- Loop of `EventSearch.iter_events` starting at offset `i`: fetch the
page at `(i, 10)`, stop if it is empty, otherwise yield it and continue at
`i + 10`.  Returns the yielded events together with the list of
`(index, count)` page requests issued.  `fuel` bounds the recursion (the
Python generator may run forever on a server that never returns an empty
page); with enough fuel the model never hits the `0` case. -/
def iter_events_aux (server : Nat → Nat → List Nat) :
    Nat → Nat → List Nat × List (Nat × Nat)
  | 0, _ => ([], [])
  | fuel + 1, i =>
    let events := EventSearch.eventsPage server i 10
    if events.length > 0 then
      let rest := iter_events_aux server fuel (i + 10)
      (events ++ rest.1, (i, 10) :: rest.2)
    else
      ([], [(i, 10)])

/-- Embedding of `EventSearch.iter_events()`: the loop starts at offset
`i = 0` with page size 10. -/
def iter_events (server : Nat → Nat → List Nat) (fuel : Nat) :
    List Nat × List (Nat × Nat) :=
  iter_events_aux server fuel 0

/-- Message of the malformed-response error raised by
`MetricsClient.describe` and `MetricsClient.describe_metric` when an
expected JSON field is missing. -/
def invalid_response_error : PyError :=
  PyError.runtimeError "Splunk Nova returned an invalid response."

/-- Embedding of `MetricsClient.describe()` with the HTTP outcome passed
in: on a failed response the error classified by `handle_http_error`; on a
2xx response the `metrics` field of the JSON body, or the
malformed-response `RuntimeError` when that field is absent (the
`KeyError` branch). -/
def MetricsClient.describe (_self : MetricsClient) (resp : HttpResult) :
    Except PyError String :=
  match resp with
  | .failure s r t => .error (handle_http_error s r t)
  | .success body =>
    match jsonGet body "metrics" with
    | some v => .ok v
    | none => .error invalid_response_error

/-- Embedding of `MetricsClient.describe_metric(name)` with the HTTP
outcome passed in: on a failed response the error classified by
`handle_http_error`; on a 2xx response the pair
`(r_json['aggregations'], r_json['dimensions'])`, or the
malformed-response `RuntimeError` when either field is absent (the
`KeyError` branch). -/
def MetricsClient.describe_metric (_self : MetricsClient)
    (resp : HttpResult) : Except PyError (String × String) :=
  match resp with
  | .failure s r t => .error (handle_http_error s r t)
  | .success body =>
    match jsonGet body "aggregations", jsonGet body "dimensions" with
    | some a, some d => .ok (a, d)
    | _, _ => .error invalid_response_error

/-- Unfolding lemma for one iteration of the `iter_events` loop. -/
theorem iter_events_aux_succ (server : Nat → Nat → List Nat)
    (fuel i : Nat) :
    iter_events_aux server (fuel + 1) i =
      (if (server i 10).length > 0 then
        ((server i 10) ++ (iter_events_aux server fuel (i + 10)).1,
          (i, 10) :: (iter_events_aux server fuel (i + 10)).2)
      else ([], [(i, 10)])) := rfl

/-- C1: on a search built from terms `x` (with an empty shared transforms
list), calling `eval('a','b/2')` then `eval('c','d+e')` appends the pairs
in call order, the serialized `transform` query value is exactly
`"eval a=b/2 c=d+e"`, and each `eval` call returns the very builder it was
invoked on, permitting chaining. -/
theorem eval_chain_transform_value (base cid csec : String) :
    let s : EventSearch :=
      { base_url := base, search := "x", earliest := none, latest := none,
        client_id := cid, client_secret := csec }
    let r1 := s.eval [] "a" "b/2"
    let r2 := r1.1.eval r1.2 "c" "d+e"
    r1.1 = s ∧ r2.1 = s ∧ r2.2 = ["a=b/2", "c=d+e"] ∧
    (r2.1.build_search r2.2 0 10 none none).transform =
      some "eval a=b/2 c=d+e" := by
  exact ⟨rfl, rfl, rfl, rfl⟩

/-- C2: the transforms list is append-only and shared across instances —
for any two distinct `EventSearch` builders, a pair appended via `eval` on
the first appears in the serialized transforms of the other builder's
subsequent request, because the accumulating list is attached to the class
(modelled as the shared state), not to each instance. -/
theorem transforms_shared_across_instances
    (s1 s2 : EventSearch) (_h : s1 ≠ s2) (transforms : List String)
    (field transform : String) (index count : Nat) :
    (field ++ "=" ++ transform) ∈ (s1.eval transforms field transform).2 ∧
    (s2.build_search (s1.eval transforms field transform).2
        index count none none).transform =
      some (EventSearch.encode_transforms
        (transforms ++ [field ++ "=" ++ transform])) := by
  constructor
  · simp [EventSearch.eval]
  · simp [EventSearch.eval, EventSearch.build_search]

/-- Witness for C2 at two concrete distinct builders. -/
theorem transforms_shared_across_instances_witness :
    ("gb" ++ "=" ++ "kb / 1024")
        ∈ (({ base_url := "u", search := "a", earliest := none,
              latest := none, client_id := "i", client_secret := "s" } :
              EventSearch).eval [] "gb" "kb / 1024").2 ∧
    (({ base_url := "u", search := "b", earliest := none, latest := none,
        client_id := "i", client_secret := "s" } :
        EventSearch).build_search
          (({ base_url := "u", search := "a", earliest := none,
              latest := none, client_id := "i", client_secret := "s" } :
              EventSearch).eval [] "gb" "kb / 1024").2
          0 10 none none).transform =
      some (EventSearch.encode_transforms ([] ++ ["gb" ++ "=" ++ "kb / 1024"])) :=
  transforms_shared_across_instances
    { base_url := "u", search := "a", earliest := none, latest := none,
      client_id := "i", client_secret := "s" }
    { base_url := "u", search := "b", earliest := none, latest := none,
      client_id := "i", client_secret := "s" }
    (by decide) [] "gb" "kb / 1024" 0 10

/-- C3: against a server whose pages at offsets 0, 10, 20, 30 hold 10, 10,
3 and 0 events, `iter_events()` yields exactly 23 events in
ascending-offset order (the three pages concatenated) and issues exactly 4
page requests, with index values 0, 10, 20, 30 and count 10, terminating
on the first empty page; any fuel of at least 4 gives the same run. -/
theorem iter_events_pagination (server : Nat → Nat → List Nat)
    (p0 p1 p2 : List Nat) (fuel : Nat)
    (h0 : server 0 10 = p0) (h0l : p0.length = 10)
    (h1 : server 10 10 = p1) (h1l : p1.length = 10)
    (h2 : server 20 10 = p2) (h2l : p2.length = 3)
    (h3 : server 30 10 = []) :
    iter_events server (fuel + 4) =
      (p0 ++ p1 ++ p2, [(0, 10), (10, 10), (20, 10), (30, 10)]) ∧
    (p0 ++ p1 ++ p2).length = 23 := by
  constructor
  · have e4 : fuel + 4 = (fuel + 3) + 1 := rfl
    have e3 : fuel + 3 = (fuel + 2) + 1 := rfl
    have e2 : fuel + 2 = (fuel + 1) + 1 := rfl
    rw [iter_events, e4, iter_events_aux_succ, h0, e3, iter_events_aux_succ,
      h1, e2, iter_events_aux_succ, h2, iter_events_aux_succ, h3]
    simp [h0l, h1l, h2l, List.append_assoc]
  · simp [h0l, h1l, h2l]

/-- Witness for C3: the server pages the list `[0, …, 22]` in chunks of
ten. -/
theorem iter_events_pagination_witness :
    iter_events (fun i c => ((List.range 23).drop i).take c) (0 + 4) =
      ([0, 1, 2, 3, 4, 5, 6, 7, 8, 9] ++
        [10, 11, 12, 13, 14, 15, 16, 17, 18, 19] ++ [20, 21, 22],
       [(0, 10), (10, 10), (20, 10), (30, 10)]) ∧
    ([0, 1, 2, 3, 4, 5, 6, 7, 8, 9] ++
      [10, 11, 12, 13, 14, 15, 16, 17, 18, 19] ++ [20, 21, 22]).length =
        23 :=
  iter_events_pagination (fun i c => ((List.range 23).drop i).take c)
    [0, 1, 2, 3, 4, 5, 6, 7, 8, 9]
    [10, 11, 12, 13, 14, 15, 16, 17, 18, 19] [20, 21, 22] 0
    (by decide) (by decide) (by decide) (by decide) (by decide) (by decide)
    (by decide)

/-- C4: with raw term `x`, `earliest='-7d'` and `latest='-1h'`, the
request's `keywords` value is exactly
`"earliest_time=-7d latest_time=-1h x"`; in general the `keywords` value
is the optional earliest prefix, then the optional latest prefix, then the
raw term, each prefix omitted when its time specifier is absent. -/
theorem keywords_time_prefixes (base cid csec : String) (s : EventSearch)
    (transforms : List String) (index count : Nat)
    (stats_string timechart_string : Option String) :
    (({ base_url := base, search := "x", earliest := some "-7d",
        latest := some "-1h", client_id := cid, client_secret := csec } :
        EventSearch).build_search transforms index count
          stats_string timechart_string).keywords =
      "earliest_time=-7d latest_time=-1h x" ∧
    (s.build_search transforms index count
        stats_string timechart_string).keywords =
      ((match s.earliest with
        | some e => "earliest_time=" ++ e ++ " "
        | none => "") ++
       (match s.latest with
        | some l => "latest_time=" ++ l ++ " "
        | none => "")) ++ s.search := by
  exact ⟨rfl, rfl⟩

/-- C5: `stats('count by host')` issues a request whose `report` value is
exactly `"stats count by host"`, `timechart('count')` one whose `report`
value is exactly `"timechart count"`, and on every request the `report`
value is fully determined with the stats directive taking priority — so
the two directives are never both present. -/
theorem report_stats_timechart (s : EventSearch) (transforms : List String)
    (stats_string timechart_string : Option String) (index count : Nat) :
    (s.stats_query transforms "count by host").report =
      some "stats count by host" ∧
    (s.timechart_query transforms "count").report =
      some "timechart count" ∧
    ((s.build_search transforms index count
        stats_string timechart_string).report =
      match stats_string with
      | some a => some ("stats " ++ a)
      | none =>
        match timechart_string with
        | some b => some ("timechart " ++ b)
        | none => none) ∧
    ∀ a b : String,
      ¬((s.build_search transforms index count
          stats_string timechart_string).report = some ("stats " ++ a) ∧
        (s.build_search transforms index count
          stats_string timechart_string).report =
            some ("timechart " ++ b)) := by
  refine ⟨rfl, rfl, rfl, ?_⟩
  rintro a b ⟨ha, hb⟩
  rw [ha, Option.some_inj] at hb
  have hchar := congrArg (fun z => z.data.head?) hb
  simp [String.data_append] at hchar

/-- C6: every failed response is classified by status code — strictly
below 500 the caller-fixable `ValueError` is raised, at 500 and above the
server-side `RuntimeError`; in both cases the error message carries the
status code, reason phrase and response body in the source's
`'{} {} - {}'` format, and classification is a pure one-shot decision (no
retry). -/
theorem http_error_classification (status_code : Nat)
    (reason text : String) :
    (status_code < 500 →
      handle_http_error status_code reason text =
        PyError.valueError
          (toString status_code ++ " " ++ reason ++ " - " ++ text)) ∧
    (500 ≤ status_code →
      handle_http_error status_code reason text =
        PyError.runtimeError
          (toString status_code ++ " " ++ reason ++ " - " ++ text)) := by
  constructor
  · intro h
    simp [handle_http_error, h]
  · intro h
    simp [handle_http_error, Nat.not_lt.mpr h]

/-- Witness for C6 at statuses 404 and 503. -/
theorem http_error_classification_witness :
    handle_http_error 404 "Not Found" "missing" =
      PyError.valueError "404 Not Found - missing" ∧
    handle_http_error 503 "Service Unavailable" "down" =
      PyError.runtimeError "503 Service Unavailable - down" :=
  ⟨((http_error_classification 404 "Not Found" "missing").1
      (by decide)).trans (by decide),
   ((http_error_classification 503 "Service Unavailable" "down").2
      (by decide)).trans (by decide)⟩

/-- C7 (the code contradicts the claim): on first access the metrics
accessor of a fresh client returns the empty-string placeholder `''` and
caches it — it never constructs a metrics sub-client — while the accessor
modelled from the spec's intended behavior constructs
`MetricsClient(client_id, client_secret, base_url)` exactly as the events
accessor constructs `EventsClient`. -/
theorem metrics_accessor_returns_placeholder :
    (Client.metrics
        { client_id := "id", client_secret := "secret", version := "1" }
        ClientState.init).1 = PyValue.str "" ∧
    ((Client.metrics
        { client_id := "id", client_secret := "secret", version := "1" }
        ClientState.init).1).isMetricsClient = false ∧
    (Client.metrics_intended
        { client_id := "id", client_secret := "secret", version := "1" }
        ClientState.init).1 =
      PyValue.metricsClient
        { client_id := "id", client_secret := "secret",
          base_url := "https://api.splunknova.com/v1/" } ∧
    (Client.events
        { client_id := "id", client_secret := "secret", version := "1" }
        ClientState.init).1 =
      PyValue.eventsClient
        { client_id := "id", client_secret := "secret",
          base_url := "https://api.splunknova.com/v1/" } :=
  ⟨rfl, rfl, by decide, by decide⟩

/-- C8: on a 2xx response whose JSON body lacks the `metrics` field,
`describe()` returns the malformed-response `RuntimeError` instead of a
value; `describe_metric(name)` returns the same malformed-response error
when either `aggregations` or `dimensions` is absent, and otherwise
returns the pair `(aggregations, dimensions)`. -/
theorem describe_missing_fields (mc : MetricsClient)
    (body abody body2 : List (String × String)) (a d : String)
    (hm : jsonGet body "metrics" = none)
    (ha : jsonGet abody "aggregations" = some a)
    (hd : jsonGet abody "dimensions" = some d)
    (h2 : jsonGet body2 "aggregations" = none ∨
      jsonGet body2 "dimensions" = none) :
    mc.describe (HttpResult.success body) =
      Except.error invalid_response_error ∧
    mc.describe_metric (HttpResult.success abody) = Except.ok (a, d) ∧
    mc.describe_metric (HttpResult.success body2) =
      Except.error invalid_response_error := by
  refine ⟨?_, ?_, ?_⟩
  · simp [MetricsClient.describe, hm]
  · simp [MetricsClient.describe_metric, ha, hd]
  · rcases h2 with h | h <;>
      rcases hag : jsonGet body2 "aggregations" with _ | x <;>
      rcases hdi : jsonGet body2 "dimensions" with _ | y <;>
      simp_all [MetricsClient.describe_metric]

/-- Witness for C8 at concrete response bodies. -/
theorem describe_missing_fields_witness :
    MetricsClient.describe
      { client_id := "i", client_secret := "s", base_url := "u" }
      (HttpResult.success [("events", "[]")]) =
        Except.error invalid_response_error ∧
    MetricsClient.describe_metric
      { client_id := "i", client_secret := "s", base_url := "u" }
      (HttpResult.success [("aggregations", "avg"), ("dimensions", "host")]) =
        Except.ok ("avg", "host") ∧
    MetricsClient.describe_metric
      { client_id := "i", client_secret := "s", base_url := "u" }
      (HttpResult.success [("dimensions", "host")]) =
        Except.error invalid_response_error :=
  describe_missing_fields
    { client_id := "i", client_secret := "s", base_url := "u" }
    [("events", "[]")] [("aggregations", "avg"), ("dimensions", "host")]
    [("dimensions", "host")] "avg" "host" (by decide) (by decide)
    (by decide) (Or.inl (by decide))

/-- Counterexample for C9 as stated: on a fresh client the first access to
the metrics accessor does not construct (or return) a metrics sub-client —
it returns the empty-string placeholder. -/
theorem metrics_first_access_not_subclient :
    ((Client.metrics
        { client_id := "id", client_secret := "secret", version := "1" }
        ClientState.init).1).isMetricsClient = false := rfl

/-- C9 (amended): both accessors are idempotent with respect to the stored
value — re-accessing after any access returns exactly the value cached by
that access with the state unchanged, so at most one stored value exists
per top-level client; on first access the events accessor constructs the
events sub-client from the credentials and derived base URL, while the
metrics accessor stores the empty-string placeholder. -/
theorem accessors_idempotent (c : Client) (st : ClientState) :
    Client.events c (Client.events c st).2 =
      ((Client.events c st).1, (Client.events c st).2) ∧
    Client.metrics c (Client.metrics c st).2 =
      ((Client.metrics c st).1, (Client.metrics c st).2) ∧
    (Client.events c ClientState.init).1 =
      PyValue.eventsClient
        { client_id := c.client_id, client_secret := c.client_secret,
          base_url := c.base_url } ∧
    (Client.metrics c ClientState.init).1 = PyValue.str "" := by
  refine ⟨?_, ?_, rfl, rfl⟩
  · rcases h : st.events_client <;> simp [Client.events, h]
  · rcases h : st.metrics_client <;> simp [Client.metrics, h]

/-- C10: the malformed-response error raised by `describe` and
`describe_metric` and the server-side failure raised on a 5xx status are
the same exception class (`RuntimeError`), so a caller catching errors by
type cannot distinguish a 5xx failure from a successful response missing a
field. -/
theorem malformed_and_server_error_same_kind (mc : MetricsClient)
    (s : Nat) (r t : String) (body abody : List (String × String))
    (hs : 500 ≤ s) (hm : jsonGet body "metrics" = none)
    (h2 : jsonGet abody "aggregations" = none ∨
      jsonGet abody "dimensions" = none) :
    ∃ e1 e2 e3 : PyError,
      mc.describe (HttpResult.failure s r t) = Except.error e1 ∧
      mc.describe (HttpResult.success body) = Except.error e2 ∧
      mc.describe_metric (HttpResult.success abody) = Except.error e3 ∧
      e1.kind = e2.kind ∧ e2.kind = e3.kind ∧
      e1.kind = ErrKind.runtimeErrorKind := by
  refine ⟨handle_http_error s r t, invalid_response_error,
    invalid_response_error, rfl, ?_, ?_, ?_, rfl, ?_⟩
  · simp [MetricsClient.describe, hm]
  · rcases h2 with h | h <;>
      rcases hag : jsonGet abody "aggregations" with _ | x <;>
      rcases hdi : jsonGet abody "dimensions" with _ | y <;>
      simp_all [MetricsClient.describe_metric]
  · simp [handle_http_error, Nat.not_lt.mpr hs, PyError.kind,
      invalid_response_error]
  · simp [handle_http_error, Nat.not_lt.mpr hs, PyError.kind]

/-- Witness for C10 at status 503 and concrete field-missing bodies. -/
theorem malformed_and_server_error_same_kind_witness :
    ∃ e1 e2 e3 : PyError,
      MetricsClient.describe
        { client_id := "i", client_secret := "s", base_url := "u" }
        (HttpResult.failure 503 "Service Unavailable" "down") =
          Except.error e1 ∧
      MetricsClient.describe
        { client_id := "i", client_secret := "s", base_url := "u" }
        (HttpResult.success []) = Except.error e2 ∧
      MetricsClient.describe_metric
        { client_id := "i", client_secret := "s", base_url := "u" }
        (HttpResult.success []) = Except.error e3 ∧
      e1.kind = e2.kind ∧ e2.kind = e3.kind ∧
      e1.kind = ErrKind.runtimeErrorKind :=
  malformed_and_server_error_same_kind
    { client_id := "i", client_secret := "s", base_url := "u" }
    503 "Service Unavailable" "down" [] [] (by decide) (by decide)
    (Or.inl (by decide))

/-- Witness for C5 at a concrete builder and concrete directive strings. -/
theorem report_stats_timechart_witness :
    (({ base_url := "u", search := "x", earliest := none, latest := none,
        client_id := "i", client_secret := "s" } :
        EventSearch).stats_query [] "count by host").report =
      some "stats count by host" ∧
    (({ base_url := "u", search := "x", earliest := none, latest := none,
        client_id := "i", client_secret := "s" } :
        EventSearch).timechart_query [] "count").report =
      some "timechart count" ∧
    ¬((({ base_url := "u", search := "x", earliest := none, latest := none,
          client_id := "i", client_secret := "s" } :
          EventSearch).build_search [] 0 10 (some "count by host")
            none).report = some ("stats " ++ "count by host") ∧
      (({ base_url := "u", search := "x", earliest := none, latest := none,
          client_id := "i", client_secret := "s" } :
          EventSearch).build_search [] 0 10 (some "count by host")
            none).report = some ("timechart " ++ "count")) :=
  ⟨(report_stats_timechart
      { base_url := "u", search := "x", earliest := none, latest := none,
        client_id := "i", client_secret := "s" }
      [] (some "count by host") none 0 10).1,
   (report_stats_timechart
      { base_url := "u", search := "x", earliest := none, latest := none,
        client_id := "i", client_secret := "s" }
      [] none (some "count") 0 10).2.1,
   (report_stats_timechart
      { base_url := "u", search := "x", earliest := none, latest := none,
        client_id := "i", client_secret := "s" }
      [] (some "count by host") none 0 10).2.2.2 "count by host" "count"⟩
